import Mathlib

/-!
Shallow embedding of the earthel crate (src/lib.rs): an elevation lookup over
SRTM/HGT tiles.  Coordinates are modelled as exact rationals (the source uses
f64; the floor/truncation arithmetic is embedded exactly).  The filesystem is
an association list from path strings to byte lists; the external collaborators
(HTTP transport, gzip decompression, file removal, metadata reads) are oracle
fields of an `Env` record, so each run of the pipeline is a pure function of
the environment and the initial filesystem.
-/

namespace Earthel

/-- Rust `format!("{:0w}", n)`: decimal rendering of `n` left-padded with '0'
to width `w` (never truncated). -/
def padNum (w : Nat) (n : Nat) : String :=
  let s := toString n
  String.mk (List.replicate (w - s.length) '0') ++ s

/-- The `HgtFile` struct of the source: folder, file name and cache path. -/
structure HgtFile where
  folder : String
  name : String
  path : String
deriving DecidableEq, Repr

/-- `HgtFile::new`: hemisphere prefixes from the signs, bands from
`abs(...).floor()`, file name with 2/3-digit zero padding, folder without
padding, cache path under `/tmp/hgt/`. -/
def HgtFile.new (latitude longitude : ℚ) : HgtFile :=
  let latP := if 0 ≤ latitude then "N" else "S"
  let lonP := if 0 ≤ longitude then "E" else "W"
  let latInt := (⌊|latitude|⌋).toNat
  let lonInt := (⌊|longitude|⌋).toNat
  let name := latP ++ padNum 2 latInt ++ lonP ++ padNum 3 lonInt ++ ".hgt"
  let folder := latP ++ toString latInt
  let path := "/tmp/hgt/" ++ folder ++ "/" ++ name
  ⟨folder, name, path⟩

/-- `format!("/tmp/tmp_{}.gz", self.name)`, the temporary download path. -/
def tmpPath (h : HgtFile) : String := "/tmp/tmp_" ++ h.name ++ ".gz"

/-- The S3 URL built in `download_hgt`. -/
def s3Url (h : HgtFile) : String :=
  "https://elevation-tiles-prod.s3.amazonaws.com/skadi/" ++ h.folder ++ "/" ++ h.name ++ ".gz"

/-- File contents: a list of byte values. -/
abbrev Bytes := List Nat

/-- Filesystem model: association list, most recent write first. -/
abbrev Fs := List (String × Bytes)

def fsGet (fs : Fs) (p : String) : Option Bytes :=
  (fs.find? (fun e => e.1 == p)).map Prod.snd

def fsExists (fs : Fs) (p : String) : Bool :=
  (fsGet fs p).isSome

def fsPut (fs : Fs) (p : String) (b : Bytes) : Fs :=
  (p, b) :: fs

def fsDel (fs : Fs) (p : String) : Fs :=
  fs.filter (fun e => ¬ e.1 == p)

/-- Result of `reqwest::get` plus `response.bytes()`: either a transport
failure or a response with an HTTP status code and a body. -/
inductive FetchResult where
  | transportError (msg : String)
  | response (status : Nat) (body : Bytes)
deriving DecidableEq, Repr

/-- The `HgtError` enum of the source. -/
inductive HgtError where
  | IoError (msg : String)
  | DecodeError (msg : String)
  | ReqwestError (msg : String)
  | InvalidResolution (n : Nat)
deriving DecidableEq, Repr

/-- Observable side effects of a run, used to state cache-idempotence. -/
inductive Event where
  | netFetch (url : String)
  | createTmp (path : String)
deriving DecidableEq, Repr

/-- The external collaborators: HTTP transport, the gzip decoder (`Except`
error = the io error that `std::io::copy` from a `GzDecoder` reports on
malformed input), the bytes already copied to the output file when the decoder
fails, whether `fs::remove_file` of the temp file succeeds, and whether
`fs::metadata` of the cache path fails. -/
structure Env where
  fetch : String → FetchResult
  gunzip : Bytes → Except String Bytes
  copiedOnErr : Bytes
  removeOk : Bool
  metaFail : Bool

/-- `extract_gz_file`: open the temp file, `File::create(&self.path)` (the
cache path itself), stream-copy the decoded bytes into it, then
`fs::remove_file(input_path)?`.  Returns `std::io::Result`, so every failure
is an io error (a `String` here).  On a decode failure the output file at the
cache path holds the bytes copied before the failure. -/
def extract_gz_file (env : Env) (h : HgtFile) (fs : Fs) :
    Except String Unit × Fs :=
  match fsGet fs (tmpPath h) with
  | none => (Except.error "open tmp failed", fs)
  | some gz =>
    match env.gunzip gz with
    | Except.error e => (Except.error e, fsPut fs h.path env.copiedOnErr)
    | Except.ok out =>
      if env.removeOk then (Except.ok (), fsDel (fsPut fs h.path out) (tmpPath h))
      else (Except.error "remove tmp failed", fsPut fs h.path out)

/-- `download_hgt`: GET the archive URL (the status of a received response is
never inspected), write the body to the temp path, then `extract_gz_file`.
A transport failure becomes `ReqwestError`; an extraction failure becomes
`IoError` via the `From` conversion at the `?`. -/
def download_hgt (env : Env) (h : HgtFile) (fs : Fs) :
    Except HgtError Unit × Fs × List Event :=
  match env.fetch (s3Url h) with
  | FetchResult.transportError msg =>
      (Except.error (HgtError.ReqwestError msg), fs, [Event.netFetch (s3Url h)])
  | FetchResult.response _status body =>
      match extract_gz_file env h (fsPut fs (tmpPath h) body) with
      | (Except.error e, fs2) =>
          (Except.error (HgtError.IoError e), fs2,
            [Event.netFetch (s3Url h), Event.createTmp (tmpPath h)])
      | (Except.ok _, fs2) =>
          (Except.ok (), fs2,
            [Event.netFetch (s3Url h), Event.createTmp (tmpPath h)])

/-- `get_file`: if the cache path exists, open it directly; otherwise download
first and then open it. -/
def get_file (env : Env) (h : HgtFile) (fs : Fs) :
    Except HgtError Bytes × Fs × List Event :=
  if fsExists fs h.path then
    match fsGet fs h.path with
    | some c => (Except.ok c, fs, [])
    | none => (Except.error (HgtError.IoError "open failed"), fs, [])
  else
    match download_hgt env h fs with
    | (Except.error e, fs1, ev) => (Except.error e, fs1, ev)
    | (Except.ok _, fs1, ev) =>
      match fsGet fs1 h.path with
      | some c => (Except.ok c, fs1, ev)
      | none => (Except.error (HgtError.IoError "open failed"), fs1, ev)

/-- The closure inside `get_resolution`: grid size from the byte length. -/
def from_metadata (len : Nat) : Option Nat :=
  if len = 25934402 then some 3601
  else if len = 2884802 then some 1201
  else none

/-- `get_resolution`: `fs::metadata(&self.path).ok().and_then(from_metadata)`;
the argument is the metadata read's outcome (`none` = the read failed). -/
def get_resolution (metaLen : Option Nat) : Option Nat :=
  metaLen.bind from_metadata

/-- `((x - x.floor()) * 3600.0) as usize`: the fractional part is nonnegative,
so the truncating cast is a floor. -/
def fracSeconds (x : ℚ) : Nat :=
  (⌊(x - (⌊x⌋ : ℚ)) * 3600⌋).toNat

/-- Seek to `pos` and `read_i16::<BigEndian>`: two bytes, big endian, decoded
as a signed 16-bit value; `none` when fewer than two bytes remain. -/
def readI16BE (c : Bytes) (pos : Nat) : Option ℤ :=
  match c.get? pos, c.get? (pos + 1) with
  | some b0, some b1 =>
      let u := (b0 % 256) * 256 + b1 % 256
      some (if u < 32768 then (u : ℤ) else (u : ℤ) - 65536)
  | _, _ => none

/-- `EarthEl::get_elevation`: build the tile identity, ensure the file, infer
the resolution from the file size (failure ⇒ `InvalidResolution(0)`), compute
the grid indices and byte offset, and read the sample. -/
def get_elevation (env : Env) (latitude longitude : ℚ) (fs : Fs) :
    Except HgtError ℤ × Fs × List Event :=
  match get_file env (HgtFile.new latitude longitude) fs with
  | (Except.error e, fs1, ev) => (Except.error e, fs1, ev)
  | (Except.ok c, fs1, ev) =>
    match get_resolution (if env.metaFail then none
        else (fsGet fs1 (HgtFile.new latitude longitude).path).map List.length) with
    | none => (Except.error (HgtError.InvalidResolution 0), fs1, ev)
    | some gridSize =>
      match readI16BE c (2 * (((gridSize - 1) - fracSeconds latitude * (gridSize - 1) / 3600)
          * gridSize + fracSeconds longitude * (gridSize - 1) / 3600)) with
      | none => (Except.error (HgtError.IoError "read failed"), fs1, ev)
      | some v => (Except.ok v, fs1, ev)

instance {ε α : Type} [DecidableEq ε] [DecidableEq α] : DecidableEq (Except ε α) := fun a b =>
  match a, b with
  | Except.ok x, Except.ok y =>
      if h : x = y then Decidable.isTrue (by rw [h])
      else Decidable.isFalse (by intro hc; cases hc; exact h rfl)
  | Except.error x, Except.error y =>
      if h : x = y then Decidable.isTrue (by rw [h])
      else Decidable.isFalse (by intro hc; cases hc; exact h rfl)
  | Except.ok _, Except.error _ => Decidable.isFalse (by intro hc; cases hc)
  | Except.error _, Except.ok _ => Decidable.isFalse (by intro hc; cases hc)

/-! Concrete environments and filesystems used to evaluate the model on
specific inputs. -/

/-- A malformed-archive environment: the fetch succeeds with status 200 but
the gzip decoder rejects the body after two bytes were already copied out. -/
def envC4 : Env :=
  { fetch := fun _ => FetchResult.response 200 [31, 139, 8, 0]
    gunzip := fun _ => Except.error "corrupt deflate stream"
    copiedOnErr := [0, 42]
    removeOk := true
    metaFail := false }

/-- A not-found environment: the fetch returns HTTP 404 with an XML error
body, which the gzip decoder then rejects. -/
def envC5 : Env :=
  { fetch := fun _ => FetchResult.response 404 [60, 63, 120, 109, 108]
    gunzip := fun _ => Except.error "invalid gzip header"
    copiedOnErr := []
    removeOk := true
    metaFail := false }

/-- An offline environment: every fetch fails at the transport level. -/
def envC5w : Env :=
  { fetch := fun _ => FetchResult.transportError "connection refused"
    gunzip := fun _ => Except.error "unused"
    copiedOnErr := []
    removeOk := true
    metaFail := false }

/-- A malformed-archive environment with nothing yet copied out. -/
def envC6 : Env :=
  { fetch := fun _ => FetchResult.response 200 [31, 139, 99, 99]
    gunzip := fun _ => Except.error "corrupt gzip stream"
    copiedOnErr := []
    removeOk := true
    metaFail := false }

/-- An environment where fetch and decompression succeed but removing the
temporary compressed file fails. -/
def envC7 : Env :=
  { fetch := fun _ => FetchResult.response 200 [31, 139]
    gunzip := fun _ => Except.ok [0, 12, 0, 34]
    copiedOnErr := []
    removeOk := false
    metaFail := false }

/-- A quiet environment for cache-hit runs: going to the network at all would
fail, so a successful run proves the cache was used. -/
def envQuiet : Env :=
  { fetch := fun _ => FetchResult.transportError "offline"
    gunzip := fun _ => Except.error "offline"
    copiedOnErr := []
    removeOk := true
    metaFail := false }

/-- `envQuiet` with a failing metadata read. -/
def envMetaFail : Env :=
  { fetch := fun _ => FetchResult.transportError "offline"
    gunzip := fun _ => Except.error "offline"
    copiedOnErr := []
    removeOk := true
    metaFail := true }

/-- A well-formed SRTM3 tile: 1201 × 1201 samples, all zero. -/
def tile1201 : Bytes := List.replicate 2884802 0

/-- A file whose size matches neither known grid layout. -/
def tileOdd : Bytes := [1, 2, 3, 4, 5]

/-- A cache that already holds the SRTM3 tile for the cell of (46, 7). -/
def fsN46E007 : Fs := [((HgtFile.new 46 7).path, tile1201)]

/-- A cache that holds an unrecognized-size file for the cell of (46, 7). -/
def fsOdd : Fs := [((HgtFile.new 46 7).path, tileOdd)]

/-! Helper lemmas. -/

theorem fsGet_fsPut_same (fs : Fs) (p : String) (b : Bytes) :
    fsGet (fsPut fs p b) p = some b := by
  simp [fsGet, fsPut, List.find?]

theorem fracSeconds_le (x : ℚ) : fracSeconds x ≤ 3599 := by
  have hlt : x - (⌊x⌋ : ℚ) < 1 := by
    have := Int.lt_floor_add_one x
    linarith
  have hfl : (⌊(x - (⌊x⌋ : ℚ)) * 3600⌋) < 3600 := by
    apply Int.floor_lt.2
    push_cast
    nlinarith
  unfold fracSeconds
  omega

theorem fracSeconds_eq_zero_of_int (x : ℚ) (h : x = (⌊x⌋ : ℚ)) : fracSeconds x = 0 := by
  unfold fracSeconds
  rw [h, Int.floor_intCast]
  simp

theorem secondsDiv_le (s n : ℕ) (hs : s ≤ 3600) : s * (n - 1) / 3600 ≤ n - 1 := by
  calc s * (n - 1) / 3600 ≤ 3600 * (n - 1) / 3600 :=
        Nat.div_le_div_right (Nat.mul_le_mul_right _ hs)
    _ = n - 1 := Nat.mul_div_cancel_left _ (by norm_num)

theorem get_file_hit (env : Env) (h : HgtFile) (fs : Fs) (c : Bytes)
    (hc : fsGet fs h.path = some c) :
    get_file env h fs = (Except.ok c, fs, []) := by
  unfold get_file
  have hex : fsExists fs h.path = true := by simp [fsExists, hc]
  simp [hex, hc]

theorem get_elevation_state (env : Env) (lat lon : ℚ) (fs : Fs) :
    (get_elevation env lat lon fs).2 = (get_file env (HgtFile.new lat lon) fs).2 := by
  unfold get_elevation
  rcases hge : get_file env (HgtFile.new lat lon) fs with ⟨r, fs1, ev⟩
  cases r with
  | error e => rfl
  | ok c =>
    simp only
    split
    · rfl
    · split <;> rfl

theorem get_file_ok_fsGet (env : Env) (h : HgtFile) (fs : Fs) (c : Bytes)
    (hok : (get_file env h fs).1 = Except.ok c) :
    fsGet (get_file env h fs).2.1 h.path = some c := by
  unfold get_file at hok ⊢
  by_cases hex : fsExists fs h.path = true
  · rw [if_pos hex] at hok ⊢
    rcases hg : fsGet fs h.path with _ | c2 <;> rw [hg] at hok ⊢
    · simp at hok
    · simp at hok ⊢
      exact hok
  · rw [if_neg hex] at hok ⊢
    rcases hd : download_hgt env h fs with ⟨r, fs1, ev⟩
    rw [hd] at hok
    cases r with
    | error e => simp at hok
    | ok u =>
      simp only at hok
      rcases hg : fsGet fs1 h.path with _ | c2 <;> rw [hg] at hok
      · simp at hok
      · simp at hok
        simp [hg, hok]

theorem download_error_cases (env : Env) (h : HgtFile) (fs : Fs) (e : HgtError)
    (hd : (download_hgt env h fs).1 = Except.error e) :
    (∃ m, e = HgtError.ReqwestError m) ∨ (∃ m, e = HgtError.IoError m) := by
  unfold download_hgt at hd
  rcases hf : env.fetch (s3Url h) with msg | ⟨st, body⟩ <;> rw [hf] at hd
  · simp at hd
    exact Or.inl ⟨_, hd.symm⟩
  · simp only at hd
    rcases hx : extract_gz_file env h (fsPut fs (tmpPath h) body) with ⟨rx, fs2⟩
    rw [hx] at hd
    cases rx with
    | error e2 =>
      simp at hd
      exact Or.inr ⟨_, hd.symm⟩
    | ok u => simp at hd

theorem get_file_error_cases (env : Env) (h : HgtFile) (fs : Fs) (e : HgtError)
    (hd : (get_file env h fs).1 = Except.error e) :
    (∃ m, e = HgtError.ReqwestError m) ∨ (∃ m, e = HgtError.IoError m) := by
  by_cases hex : fsExists fs h.path = true
  · simp only [get_file, hex, if_true] at hd
    rcases hg : fsGet fs h.path with _ | c2
    · rw [hg] at hd
      simp at hd
      exact Or.inr ⟨_, hd.symm⟩
    · rw [hg] at hd
      simp at hd
  · simp only [get_file, hex, if_false] at hd
    rcases hdl : download_hgt env h fs with ⟨r, fs1, ev⟩
    rw [hdl] at hd
    cases r with
    | error e2 =>
      simp at hd
      subst hd
      exact download_error_cases env h fs e2 (by rw [hdl])
    | ok u =>
      simp only at hd
      rcases hg : fsGet fs1 h.path with _ | c2
      · rw [hg] at hd
        simp at hd
        exact Or.inr ⟨_, hd.symm⟩
      · rw [hg] at hd
        simp at hd

theorem get_elevation_error_cases (env : Env) (lat lon : ℚ) (fs : Fs) (e : HgtError)
    (hd : (get_elevation env lat lon fs).1 = Except.error e) :
    (∃ m, e = HgtError.ReqwestError m) ∨ (∃ m, e = HgtError.IoError m) ∨
      e = HgtError.InvalidResolution 0 := by
  unfold get_elevation at hd
  rcases hge : get_file env (HgtFile.new lat lon) fs with ⟨r, fs1, ev⟩
  rw [hge] at hd
  cases r with
  | error e2 =>
    simp at hd
    subst hd
    rcases get_file_error_cases env (HgtFile.new lat lon) fs e2 (by rw [hge]) with h1 | h1
    · exact Or.inl h1
    · exact Or.inr (Or.inl h1)
  | ok c =>
    simp only at hd
    rcases hres : get_resolution (if env.metaFail = true then none
        else (fsGet fs1 (HgtFile.new lat lon).path).map List.length) with _ | n
    · rw [hres] at hd
      simp at hd
      exact Or.inr (Or.inr hd.symm)
    · rw [hres] at hd
      simp only at hd
      rcases hri : readI16BE c (2 * (((n - 1) - fracSeconds lat * (n - 1) / 3600) * n
          + fracSeconds lon * (n - 1) / 3600)) with _ | v
      · rw [hri] at hd
        simp at hd
        exact Or.inr (Or.inl ⟨_, hd.symm⟩)
      · rw [hri] at hd
        simp at hd

theorem get_elevation_ok_exists (env : Env) (lat lon : ℚ) (fs : Fs) (v : ℤ)
    (hok : (get_elevation env lat lon fs).1 = Except.ok v) :
    fsExists (get_elevation env lat lon fs).2.1 (HgtFile.new lat lon).path = true := by
  rw [get_elevation_state]
  unfold get_elevation at hok
  rcases hge : get_file env (HgtFile.new lat lon) fs with ⟨r, fs1, ev⟩
  rw [hge] at hok
  cases r with
  | error e => simp at hok
  | ok c =>
    have hfg : fsGet (get_file env (HgtFile.new lat lon) fs).2.1 (HgtFile.new lat lon).path
        = some c := get_file_ok_fsGet env (HgtFile.new lat lon) fs c (by rw [hge])
    rw [hge] at hfg
    simp [fsExists, hfg]

/-! Concrete evaluations. -/

theorem hgtNew_46_7 :
    HgtFile.new 46 7 = ⟨"N46", "N46E007.hgt", "/tmp/hgt/N46/N46E007.hgt"⟩ := by
  have h1 : (⌊|(46:ℚ)|⌋) = 46 := by norm_num
  have h2 : (⌊|(7:ℚ)|⌋) = 7 := by norm_num
  have h3 : (0:ℚ) ≤ 46 := by norm_num
  have h4 : (0:ℚ) ≤ 7 := by norm_num
  simp only [HgtFile.new, h1, h2, if_pos h3, if_pos h4]
  decide

theorem hgtNew_93half_29quarter :
    HgtFile.new (93 / 2) (29 / 4) = ⟨"N46", "N46E007.hgt", "/tmp/hgt/N46/N46E007.hgt"⟩ := by
  have h1 : (⌊|(93 / 2 : ℚ)|⌋) = 46 := by
    rw [abs_of_nonneg (by norm_num : (0:ℚ) ≤ 93 / 2)]
    norm_num
  have h2 : (⌊|(29 / 4 : ℚ)|⌋) = 7 := by
    rw [abs_of_nonneg (by norm_num : (0:ℚ) ≤ 29 / 4)]
    norm_num
  have h3 : (0:ℚ) ≤ 93 / 2 := by norm_num
  have h4 : (0:ℚ) ≤ 29 / 4 := by norm_num
  simp only [HgtFile.new, h1, h2, if_pos h3, if_pos h4]
  decide

theorem hgtNew_47_5 :
    HgtFile.new 47 5 = ⟨"N47", "N47E005.hgt", "/tmp/hgt/N47/N47E005.hgt"⟩ := by
  have h1 : (⌊|(47:ℚ)|⌋) = 47 := by norm_num
  have h2 : (⌊|(5:ℚ)|⌋) = 5 := by norm_num
  have h3 : (0:ℚ) ≤ 47 := by norm_num
  have h4 : (0:ℚ) ≤ 5 := by norm_num
  simp only [HgtFile.new, h1, h2, if_pos h3, if_pos h4]
  decide

theorem hgtNew_44_6 :
    HgtFile.new 44 6 = ⟨"N44", "N44E006.hgt", "/tmp/hgt/N44/N44E006.hgt"⟩ := by
  have h1 : (⌊|(44:ℚ)|⌋) = 44 := by norm_num
  have h2 : (⌊|(6:ℚ)|⌋) = 6 := by norm_num
  have h3 : (0:ℚ) ≤ 44 := by norm_num
  have h4 : (0:ℚ) ≤ 6 := by norm_num
  simp only [HgtFile.new, h1, h2, if_pos h3, if_pos h4]
  decide

theorem hgtNew_12_34 :
    HgtFile.new 12 34 = ⟨"N12", "N12E034.hgt", "/tmp/hgt/N12/N12E034.hgt"⟩ := by
  have h1 : (⌊|(12:ℚ)|⌋) = 12 := by norm_num
  have h2 : (⌊|(34:ℚ)|⌋) = 34 := by norm_num
  have h3 : (0:ℚ) ≤ 12 := by norm_num
  have h4 : (0:ℚ) ≤ 34 := by norm_num
  simp only [HgtFile.new, h1, h2, if_pos h3, if_pos h4]
  decide

theorem fsGet_fsN46E007 : fsGet fsN46E007 (HgtFile.new 46 7).path = some tile1201 := by
  simp [fsN46E007, fsGet, List.find?]

theorem fsGet_fsOdd : fsGet fsOdd (HgtFile.new 46 7).path = some tileOdd := by
  simp [fsOdd, fsGet, List.find?]

theorem tile1201_length : tile1201.length = 2884802 := by
  rw [tile1201, List.length_replicate]

theorem tile1201_get_a : tile1201.get? 2882400 = some 0 := by
  rw [tile1201, List.get?_eq_getElem?, List.getElem?_replicate_of_lt (by norm_num)]

theorem tile1201_get_b : tile1201.get? (2882400 + 1) = some 0 := by
  rw [tile1201, List.get?_eq_getElem?, List.getElem?_replicate_of_lt (by norm_num)]

theorem readI16BE_tile1201 : readI16BE tile1201 2882400 = some 0 := by
  rw [readI16BE, tile1201_get_a, tile1201_get_b]
  simp

theorem get_elevation_hit_eval (env : Env) (lat lon : ℚ) (fs : Fs) (c : Bytes) (n : Nat)
    (hmf : env.metaFail = false)
    (hc : fsGet fs (HgtFile.new lat lon).path = some c)
    (hn : get_resolution (some c.length) = some n) :
    (get_elevation env lat lon fs).1 =
      match readI16BE c (2 * (((n - 1) - fracSeconds lat * (n - 1) / 3600) * n
          + fracSeconds lon * (n - 1) / 3600)) with
      | none => Except.error (HgtError.IoError "read failed")
      | some v => Except.ok v := by
  have hgf := get_file_hit env (HgtFile.new lat lon) fs c hc
  unfold get_elevation
  rw [hgf]
  simp only [hmf, Bool.false_eq_true, if_false, hc, Option.map_some', hn]
  rcases readI16BE c (2 * (((n - 1) - fracSeconds lat * (n - 1) / 3600) * n
      + fracSeconds lon * (n - 1) / 3600)) with _ | v <;> rfl

theorem get_elevation_metaFail_eval (env : Env) (lat lon : ℚ) (fs : Fs) (c : Bytes)
    (hmf : env.metaFail = true)
    (hc : fsGet fs (HgtFile.new lat lon).path = some c) :
    (get_elevation env lat lon fs).1 = Except.error (HgtError.InvalidResolution 0) := by
  have hgf := get_file_hit env (HgtFile.new lat lon) fs c hc
  unfold get_elevation
  rw [hgf]
  simp only [hmf, if_true, get_resolution, Option.bind]

theorem resolution_tile1201 : get_resolution (some tile1201.length) = some 1201 := by
  rw [tile1201_length]
  rfl

theorem run_hit_N46E007 : (get_elevation envQuiet 46 7 fsN46E007).1 = Except.ok 0 := by
  have h := get_elevation_hit_eval envQuiet 46 7 fsN46E007 tile1201 1201 rfl
    fsGet_fsN46E007 resolution_tile1201
  have hpos : 2 * (((1201 - 1) - fracSeconds 46 * (1201 - 1) / 3600) * 1201
      + fracSeconds 7 * (1201 - 1) / 3600) = 2882400 := by
    rw [fracSeconds_eq_zero_of_int 46 (by norm_num), fracSeconds_eq_zero_of_int 7 (by norm_num)]
  rw [h, hpos, readI16BE_tile1201]

theorem run_metaFail_N46E007 :
    (get_elevation envMetaFail 46 7 fsN46E007).1
      = Except.error (HgtError.InvalidResolution 0) :=
  get_elevation_metaFail_eval envMetaFail 46 7 fsN46E007 tile1201 rfl fsGet_fsN46E007

/-! Download-path evaluation lemmas. -/

theorem download_transport (env : Env) (h : HgtFile) (fs : Fs) (msg : String)
    (hf : env.fetch (s3Url h) = FetchResult.transportError msg) :
    download_hgt env h fs
      = (Except.error (HgtError.ReqwestError msg), fs, [Event.netFetch (s3Url h)]) := by
  unfold download_hgt
  rw [hf]

theorem download_gunzip_error (env : Env) (h : HgtFile) (fs : Fs)
    (st : Nat) (body : Bytes) (e : String)
    (hf : env.fetch (s3Url h) = FetchResult.response st body)
    (hgz : env.gunzip body = Except.error e) :
    download_hgt env h fs
      = (Except.error (HgtError.IoError e),
          fsPut (fsPut fs (tmpPath h) body) h.path env.copiedOnErr,
          [Event.netFetch (s3Url h), Event.createTmp (tmpPath h)]) := by
  unfold download_hgt extract_gz_file
  rw [hf]
  simp [fsGet_fsPut_same, hgz]

theorem download_remove_fail (env : Env) (h : HgtFile) (fs : Fs)
    (st : Nat) (body out : Bytes)
    (hf : env.fetch (s3Url h) = FetchResult.response st body)
    (hgz : env.gunzip body = Except.ok out)
    (hrm : env.removeOk = false) :
    download_hgt env h fs
      = (Except.error (HgtError.IoError "remove tmp failed"),
          fsPut (fsPut fs (tmpPath h) body) h.path out,
          [Event.netFetch (s3Url h), Event.createTmp (tmpPath h)]) := by
  unfold download_hgt extract_gz_file
  rw [hf]
  simp [fsGet_fsPut_same, hgz, hrm]

theorem get_file_miss_of_download_err (env : Env) (h : HgtFile) (fs : Fs)
    (e : HgtError) (fs1 : Fs) (ev : List Event)
    (hmiss : fsExists fs h.path = false)
    (hd : download_hgt env h fs = (Except.error e, fs1, ev)) :
    get_file env h fs = (Except.error e, fs1, ev) := by
  unfold get_file
  rw [hmiss]
  simp only [Bool.false_eq_true, if_false, hd]

theorem get_elevation_err (env : Env) (lat lon : ℚ) (fs : Fs) (e : HgtError)
    (hgf : (get_file env (HgtFile.new lat lon) fs).1 = Except.error e) :
    (get_elevation env lat lon fs).1 = Except.error e := by
  unfold get_elevation
  rcases hge : get_file env (HgtFile.new lat lon) fs with ⟨r, fs1, ev⟩
  rw [hge] at hgf
  cases r with
  | error e2 =>
    simp at hgf
    simp [hgf]
  | ok c => simp at hgf

/-! The claims. -/

/-- Claim C1: for every latitude and longitude, `get_elevation` computes
`latSeconds = floor((lat - floor lat) * 3600)` and likewise for the longitude
(`fracSeconds` here), then `row = (N-1) - latSeconds*(N-1)/3600` and
`col = lonSeconds*(N-1)/3600`, and reads the sample at byte offset
`2*(row*N+col)` from the start of the tile file; a latitude that is an exact
integer degree gives `latSeconds = 0` and hence `row = N-1`, the southernmost
row of its cell. -/
theorem get_elevation_index_formula (env : Env) (lat lon : ℚ) (fs : Fs)
    (c : Bytes) (n : Nat)
    (hmf : env.metaFail = false)
    (hc : fsGet fs (HgtFile.new lat lon).path = some c)
    (hn : get_resolution (some c.length) = some n) :
    ((get_elevation env lat lon fs).1 =
      match readI16BE c (2 * (((n - 1) - fracSeconds lat * (n - 1) / 3600) * n
          + fracSeconds lon * (n - 1) / 3600)) with
      | none => Except.error (HgtError.IoError "read failed")
      | some v => Except.ok v) ∧
    (lat = (⌊lat⌋ : ℚ) →
      fracSeconds lat = 0 ∧ (n - 1) - fracSeconds lat * (n - 1) / 3600 = n - 1) := by
  refine ⟨get_elevation_hit_eval env lat lon fs c n hmf hc hn, fun hint => ?_⟩
  have h0 : fracSeconds lat = 0 := fracSeconds_eq_zero_of_int lat hint
  refine ⟨h0, ?_⟩
  rw [h0]
  simp

/-- Witness for the index-formula theorem at the cached SRTM3 tile of
(46, 7). -/
theorem get_elevation_index_formula_witness :
    ((get_elevation envQuiet 46 7 fsN46E007).1 =
      match readI16BE tile1201 (2 * (((1201 - 1) - fracSeconds 46 * (1201 - 1) / 3600) * 1201
          + fracSeconds 7 * (1201 - 1) / 3600)) with
      | none => Except.error (HgtError.IoError "read failed")
      | some v => Except.ok v) ∧
    ((46 : ℚ) = (⌊(46 : ℚ)⌋ : ℚ) →
      fracSeconds 46 = 0 ∧ (1201 - 1) - fracSeconds 46 * (1201 - 1) / 3600 = 1201 - 1) :=
  get_elevation_index_formula envQuiet 46 7 fsN46E007 tile1201 1201 rfl
    fsGet_fsN46E007 resolution_tile1201

/-- Claim C2: the grid resolution comes only from the tile file's byte size:
25,934,402 bytes give N = 3601, 2,884,802 bytes give N = 1201, and any other
size makes `get_elevation` fail with `InvalidResolution` instead of silently
falling back to a default resolution. -/
theorem resolution_from_size_only (env : Env) (lat lon : ℚ) (fs : Fs) (c : Bytes)
    (hs1 : c.length ≠ 25934402) (hs2 : c.length ≠ 2884802)
    (hmf : env.metaFail = false)
    (hc : fsGet fs (HgtFile.new lat lon).path = some c) :
    get_resolution (some 25934402) = some 3601 ∧
    get_resolution (some 2884802) = some 1201 ∧
    get_resolution (some c.length) = none ∧
    (get_elevation env lat lon fs).1 = Except.error (HgtError.InvalidResolution 0) := by
  have hres : get_resolution (some c.length) = none := by
    simp [get_resolution, from_metadata, hs1, hs2]
  refine ⟨rfl, rfl, hres, ?_⟩
  have hgf := get_file_hit env (HgtFile.new lat lon) fs c hc
  unfold get_elevation
  rw [hgf]
  simp only [hmf, Bool.false_eq_true, if_false, hc, Option.map_some', hres]

/-- Witness for the resolution-policy theorem at a 5-byte cached file. -/
theorem resolution_from_size_only_witness :
    get_resolution (some 25934402) = some 3601 ∧
    get_resolution (some 2884802) = some 1201 ∧
    get_resolution (some tileOdd.length) = none ∧
    (get_elevation envQuiet 46 7 fsOdd).1 = Except.error (HgtError.InvalidResolution 0) :=
  resolution_from_size_only envQuiet 46 7 fsOdd tileOdd (by decide) (by decide) rfl
    fsGet_fsOdd

/-- Claim C3: the tile identity uses prefix N for latitude ≥ 0 (else S) and E
for longitude ≥ 0 (else W) with band `floor(abs(value))`; the file name
zero-pads the latitude band to 2 digits and the longitude band to 3 digits
with extension `.hgt`, the folder is the latitude prefix plus the unpadded
band; latitude -0.5 falls in band S0, not S1. -/
theorem tile_identity_formatting (lat lon : ℚ) :
    (HgtFile.new lat lon).name =
      (if 0 ≤ lat then "N" else "S") ++ padNum 2 (⌊|lat|⌋).toNat ++
      (if 0 ≤ lon then "E" else "W") ++ padNum 3 (⌊|lon|⌋).toNat ++ ".hgt" ∧
    (HgtFile.new lat lon).folder =
      (if 0 ≤ lat then "N" else "S") ++ toString (⌊|lat|⌋).toNat ∧
    (HgtFile.new (-(1 : ℚ) / 2) 3).folder = "S0" ∧
    (HgtFile.new (-(1 : ℚ) / 2) 3).name = "S00E003.hgt" := by
  have h1 : (⌊|(-(1 : ℚ) / 2)|⌋) = 0 := by
    rw [abs_of_nonpos (by norm_num : (-(1 : ℚ) / 2) ≤ 0)]
    norm_num
  have h2 : (⌊|(3 : ℚ)|⌋) = 3 := by norm_num
  have h3 : ¬ (0 : ℚ) ≤ -(1 : ℚ) / 2 := by norm_num
  have h4 : (0 : ℚ) ≤ 3 := by norm_num
  refine ⟨rfl, rfl, ?_, ?_⟩ <;>
    · simp only [HgtFile.new, h1, h2, if_neg h3, if_pos h4]
      decide

/-- Claim C4 (violated by the code): a failed decompression must not leave a
complete-looking file at the cache path.  Evaluating the model on a malformed
archive for tile N47E005: the call fails with an io error, yet a file holding
the partially copied bytes exists at the cache path, and a later call finds it
there and serves it as the tile without any download. -/
theorem extract_failure_leaves_cache_file :
    ((get_elevation envC4 47 5 []).1
        = Except.error (HgtError.IoError "corrupt deflate stream")) ∧
    fsExists (get_elevation envC4 47 5 []).2.1 "/tmp/hgt/N47/N47E005.hgt" = true ∧
    (get_file envC4 (HgtFile.new 47 5) (get_elevation envC4 47 5 []).2.1).1
        = Except.ok [0, 42] := by
  refine ⟨?_, ?_, ?_⟩ <;>
    · rw [get_elevation, hgtNew_47_5]
      decide

/-- Claim C5 counterexample: with an HTTP 404 response (non-success status),
`get_elevation` fails with `IoError` (the body is saved and the gzip decode of
it fails), not with the `ReqwestError`/NetworkError variant. -/
theorem non_success_status_yields_io_error :
    envC5.fetch (s3Url (HgtFile.new 47 5))
        = FetchResult.response 404 [60, 63, 120, 109, 108] ∧
    (get_elevation envC5 47 5 []).1 = Except.error (HgtError.IoError "invalid gzip header") := by
  constructor
  · rfl
  · rw [get_elevation, hgtNew_47_5]
    decide

/-- Claim C5 (amended): a transport failure of the fetch propagates as the
`ReqwestError` (NetworkError) variant; a response with any status, including a
non-success one, is not checked — its body is saved and decompressed, and when
the gzip decode rejects it the call fails with `IoError`. -/
theorem fetch_failure_propagation (env : Env) (lat lon : ℚ) (fs : Fs)
    (msg e : String) (st : Nat) (body : Bytes)
    (hmiss : fsExists fs (HgtFile.new lat lon).path = false) :
    (env.fetch (s3Url (HgtFile.new lat lon)) = FetchResult.transportError msg →
      (get_elevation env lat lon fs).1 = Except.error (HgtError.ReqwestError msg)) ∧
    (env.fetch (s3Url (HgtFile.new lat lon)) = FetchResult.response st body →
      env.gunzip body = Except.error e →
      (get_elevation env lat lon fs).1 = Except.error (HgtError.IoError e)) := by
  constructor
  · intro hf
    exact get_elevation_err env lat lon fs _
      ((get_file_miss_of_download_err env _ fs _ _ _ hmiss
        (download_transport env _ fs msg hf)) ▸ rfl)
  · intro hf hgz
    exact get_elevation_err env lat lon fs _
      ((get_file_miss_of_download_err env _ fs _ _ _ hmiss
        (download_gunzip_error env _ fs st body e hf hgz)) ▸ rfl)

/-- Witness for the fetch-failure theorem in an offline environment. -/
theorem fetch_failure_propagation_witness :
    (envC5w.fetch (s3Url (HgtFile.new 46 7)) = FetchResult.transportError "connection refused" →
      (get_elevation envC5w 46 7 []).1
        = Except.error (HgtError.ReqwestError "connection refused")) ∧
    (envC5w.fetch (s3Url (HgtFile.new 46 7)) = FetchResult.response 200 [] →
      envC5w.gunzip [] = Except.error "offline gz" →
      (get_elevation envC5w 46 7 []).1 = Except.error (HgtError.IoError "offline gz")) :=
  fetch_failure_propagation envC5w 46 7 [] "connection refused" "offline gz" 200 [] rfl

/-- Claim C6 counterexample: a malformed gzip stream makes `get_elevation`
fail with the `IoError` variant, not the `DecodeError` variant. -/
theorem malformed_gzip_not_decode_error :
    (get_elevation envC6 44 6 []).1 = Except.error (HgtError.IoError "corrupt gzip stream") ∧
    (get_elevation envC6 44 6 []).1
        ≠ Except.error (HgtError.DecodeError "corrupt gzip stream") := by
  constructor <;>
    · rw [get_elevation, hgtNew_44_6]
      decide

/-- Claim C6 (amended): a malformed gzip stream surfaces as `IoError`
(`extract_gz_file` returns `std::io::Result`, so its failures are converted to
`IoError` by the `?` in `download_hgt`); the `DecodeError` variant is never
produced by any execution of `get_elevation`. -/
theorem decode_error_never_produced (env : Env) (lat lon : ℚ) (fs : Fs) (msg : String) :
    (get_elevation env lat lon fs).1 ≠ Except.error (HgtError.DecodeError msg) := by
  intro hd
  rcases get_elevation_error_cases env lat lon fs _ hd with ⟨m, hm⟩ | ⟨m, hm⟩ | hm <;>
    simp at hm

/-- Witness for the no-DecodeError theorem at a concrete input. -/
theorem decode_error_never_produced_witness :
    (get_elevation envQuiet 46 7 fsN46E007).1
      ≠ Except.error (HgtError.DecodeError "corrupt") :=
  decode_error_never_produced envQuiet 46 7 fsN46E007 "corrupt"

/-- Claim C7 counterexample: fetch and decompression succeed but removing the
temporary compressed file fails; the lookup fails with `IoError` instead of
succeeding, because `extract_gz_file` propagates the removal error with `?`. -/
theorem remove_failure_fails_lookup :
    (get_elevation envC7 12 34 []).1 = Except.error (HgtError.IoError "remove tmp failed") := by
  rw [get_elevation, hgtNew_12_34]
  decide

/-- Claim C7 (amended): removal of the temporary compressed file is not
best-effort: when it fails, the current elevation lookup fails with `IoError`,
even though the fully decompressed tile is already in place at the cache path
(so later calls succeed without refetching). -/
theorem remove_failure_propagates (env : Env) (lat lon : ℚ) (fs : Fs)
    (st : Nat) (body out : Bytes)
    (hmiss : fsExists fs (HgtFile.new lat lon).path = false)
    (hf : env.fetch (s3Url (HgtFile.new lat lon)) = FetchResult.response st body)
    (hgz : env.gunzip body = Except.ok out)
    (hrm : env.removeOk = false) :
    (get_elevation env lat lon fs).1 = Except.error (HgtError.IoError "remove tmp failed") ∧
    fsGet (get_elevation env lat lon fs).2.1 (HgtFile.new lat lon).path = some out := by
  have hdl := download_remove_fail env (HgtFile.new lat lon) fs st body out hf hgz hrm
  have hgf := get_file_miss_of_download_err env (HgtFile.new lat lon) fs _ _ _ hmiss hdl
  constructor
  · exact get_elevation_err env lat lon fs _ (hgf ▸ rfl)
  · rw [get_elevation_state, hgf]
    exact fsGet_fsPut_same _ _ _

/-- Witness for the removal-failure theorem. -/
theorem remove_failure_propagates_witness :
    ((get_elevation envC7 46 7 []).1 = Except.error (HgtError.IoError "remove tmp failed")) ∧
    fsGet (get_elevation envC7 46 7 []).2.1 (HgtFile.new 46 7).path = some [0, 12, 0, 34] :=
  remove_failure_propagates envC7 46 7 [] 200 [31, 139] [0, 12, 0, 34] rfl rfl rfl rfl

/-- Claim C8: when a file already exists at the tile's cache path it is opened
and used directly — no network fetch, no temporary file, the filesystem is
unchanged; and after one successful call the tile exists at the path, so any
later call for a coordinate with the same tile identity performs no fetch. -/
theorem cache_hit_serves_directly (env : Env) (lat lon lat2 lon2 : ℚ) (fs fs0 : Fs)
    (c : Bytes) (v : ℤ)
    (hc : fsGet fs (HgtFile.new lat lon).path = some c)
    (hsame : HgtFile.new lat2 lon2 = HgtFile.new lat lon)
    (hok : (get_elevation env lat lon fs0).1 = Except.ok v) :
    get_file env (HgtFile.new lat lon) fs = (Except.ok c, fs, []) ∧
    (get_elevation env lat2 lon2 fs).2.1 = fs ∧
    (get_elevation env lat2 lon2 fs).2.2 = [] ∧
    fsExists (get_elevation env lat lon fs0).2.1 (HgtFile.new lat lon).path = true := by
  have hgf := get_file_hit env (HgtFile.new lat lon) fs c hc
  have hstate := get_elevation_state env lat2 lon2 fs
  rw [hsame, hgf] at hstate
  exact ⟨hgf, by rw [hstate], by rw [hstate],
    get_elevation_ok_exists env lat lon fs0 v hok⟩

/-- Witness for the cache-hit theorem: (93/2, 29/4) lies in the same cell as
(46, 7). -/
theorem cache_hit_serves_directly_witness :
    get_file envQuiet (HgtFile.new 46 7) fsN46E007 = (Except.ok tile1201, fsN46E007, []) ∧
    (get_elevation envQuiet (93 / 2) (29 / 4) fsN46E007).2.1 = fsN46E007 ∧
    (get_elevation envQuiet (93 / 2) (29 / 4) fsN46E007).2.2 = [] ∧
    fsExists (get_elevation envQuiet 46 7 fsN46E007).2.1 (HgtFile.new 46 7).path = true :=
  cache_hit_serves_directly envQuiet 46 7 (93 / 2) (29 / 4) fsN46E007 fsN46E007 tile1201 0
    fsGet_fsN46E007 (hgtNew_93half_29quarter.trans hgtNew_46_7.symm) run_hit_N46E007

/-- Claim C9: when the metadata read of the tile file fails, `get_resolution`
returns `none`, so `get_elevation` fails with `InvalidResolution` rather than
`IoError`; and the numeric payload of every `InvalidResolution` error produced
by `get_elevation` is 0, never the actual offending file size. -/
theorem metadata_failure_invalid_resolution (env env2 : Env) (lat lon lat2 lon2 : ℚ)
    (fs fs2 : Fs) (c : Bytes) (k : Nat)
    (hmf : env.metaFail = true)
    (hc : fsGet fs (HgtFile.new lat lon).path = some c)
    (hk : (get_elevation env2 lat2 lon2 fs2).1 = Except.error (HgtError.InvalidResolution k)) :
    get_resolution none = none ∧
    (get_elevation env lat lon fs).1 = Except.error (HgtError.InvalidResolution 0) ∧
    k = 0 := by
  refine ⟨rfl, get_elevation_metaFail_eval env lat lon fs c hmf hc, ?_⟩
  rcases get_elevation_error_cases env2 lat2 lon2 fs2 _ hk with ⟨m, hm⟩ | ⟨m, hm⟩ | hm
  · simp at hm
  · simp at hm
  · simpa using hm

/-- Witness for the metadata-failure theorem. -/
theorem metadata_failure_invalid_resolution_witness :
    get_resolution none = none ∧
    (get_elevation envMetaFail 46 7 fsN46E007).1
      = Except.error (HgtError.InvalidResolution 0) ∧
    (0 : Nat) = 0 :=
  metadata_failure_invalid_resolution envMetaFail envMetaFail 46 7 46 7
    fsN46E007 fsN46E007 tile1201 0 rfl fsGet_fsN46E007 run_metaFail_N46E007

/-- Claim C10: for N in {1201, 3601} and latSeconds, lonSeconds in [0, 3599]
(which `fracSeconds` always produces), the row and column lie in [0, N-1], the
byte offset satisfies `2*(row*N+col) + 2 ≤ 2*N*N` (the two-byte read stays
inside a well-formed N×N tile), and the row subtraction never underflows. -/
theorem grid_index_bounds (n latS lonS : Nat) (x : ℚ)
    (hn : n = 1201 ∨ n = 3601) (hlat : latS ≤ 3599) (hlon : lonS ≤ 3599) :
    latS * (n - 1) / 3600 ≤ n - 1 ∧
    (n - 1) - latS * (n - 1) / 3600 ≤ n - 1 ∧
    lonS * (n - 1) / 3600 ≤ n - 1 ∧
    2 * (((n - 1) - latS * (n - 1) / 3600) * n + lonS * (n - 1) / 3600) + 2 ≤ 2 * (n * n) ∧
    fracSeconds x ≤ 3599 := by
  have h1 := secondsDiv_le latS n (by omega)
  have h3 := secondsDiv_le lonS n (by omega)
  refine ⟨h1, Nat.sub_le _ _, h3, ?_, fracSeconds_le x⟩
  rcases hn with h | h <;> subst h <;> omega

/-- Witness for the bounds theorem at N = 3601 and the extreme seconds. -/
theorem grid_index_bounds_witness :
    3599 * (3601 - 1) / 3600 ≤ 3601 - 1 ∧
    (3601 - 1) - 3599 * (3601 - 1) / 3600 ≤ 3601 - 1 ∧
    3599 * (3601 - 1) / 3600 ≤ 3601 - 1 ∧
    2 * (((3601 - 1) - 3599 * (3601 - 1) / 3600) * 3601 + 3599 * (3601 - 1) / 3600) + 2
      ≤ 2 * (3601 * 3601) ∧
    fracSeconds (185 / 4) ≤ 3599 :=
  grid_index_bounds 3601 3599 3599 (185 / 4) (Or.inr rfl) (by decide) (by decide)

end Earthel
